import Mathlib

/-!
# Claims Ledger Service: shallow embedding of the CRUD/business core

This file embeds the business-rule and data-integrity core of the claim
management service (`src/crud.py`, data model from `src/models.py`) and
proves/refutes the frozen claims about it.

Modelling conventions:
* A database snapshot is a `DB` record of three row lists (policyholders,
  policies, claims), mirroring the three tables of `models.py`.
* Python `float` amounts (`coverage`, `amount`) are modelled as exact
  integers (`Int`): every business rule only adds and compares these
  quantities, no rule divides or depends on fractional or floating-point
  behaviour, and every boundary in the source (`0`, `10000`) is integral.
* `HTTPException(status_code, detail)` is modelled by the `HTTPException`
  structure; each operation returns `Except HTTPException result × DB`,
  where a raised exception leaves the snapshot unchanged (the request
  transaction is rolled back, nothing was committed).
* SQL aggregate semantics are preserved: `SUM`/`MAX` over an empty set is
  NULL (`Option`), and the Python idiom `scalar() or 0` is `pyOrZero`,
  which also sends a zero scalar to `0`.
* The random draw of `generate_policyholder_id` is modelled by passing the
  drawn id as an explicit argument `newId` to `create_policyholder`.
* `session.execute(update(...)...)` is a bulk SQL UPDATE over all rows
  matching the WHERE clause (`List.map` with a guard); ORM attribute
  mutation after `scalar_one_or_none` / `session.get` touches the single
  fetched row (`updateFirst`); `session.execute(delete(...)...)` and the
  ORM cascade of `session.delete` remove every matching row (`List.filter`).
-/

deriving instance DecidableEq for Except

/-- One row of the `policyholders` table (`models.py`, class `Policyholder`). -/
structure Policyholder where
  id : Int
  name : String
  email : String
deriving Repr, DecidableEq

/-- One row of the `policies` table (`models.py`, class `Policy`). -/
structure Policy where
  policy_id : Int
  policyholder_id : Int
  coverage : Int
  status : String
deriving Repr, DecidableEq

/-- One row of the `claims` table (`models.py`, class `Claim`). -/
structure Claim where
  claim_id : Int
  policy_id : Int
  policyholder_id : Int
  amount : Int
  status : String
deriving Repr, DecidableEq

/-- A snapshot of the relational store: the three tables. -/
structure DB where
  policyholders : List Policyholder
  policies : List Policy
  claims : List Claim
deriving Repr, DecidableEq

/-- Model of fastapi's `HTTPException(status_code=..., detail=...)`. -/
structure HTTPException where
  status_code : Nat
  detail : String
deriving Repr, DecidableEq

/-- SQL `MAX` aggregate: NULL on an empty set, otherwise the maximum. -/
def sqlMaxInt : List Int → Option Int
  | [] => none
  | x :: xs => some (xs.foldl max x)

/-- SQL `SUM` aggregate: NULL on an empty set, otherwise the sum. -/
def sqlSumInt (l : List Int) : Option Int :=
  match l with
  | [] => none
  | _ => some l.sum

/-- Python `scalar() or 0` on an optional integer: `None` and falsy `0`
both become `0`. -/
def pyOrZeroInt : Option Int → Int
  | none => 0
  | some v => if v = 0 then 0 else v

/-- Python `scalar() or 0` on an optional sum. -/
def pyOrZeroSum : Option Int → Int
  | none => 0
  | some v => if v = 0 then 0 else v

/-- Rewrite the first list element satisfying `pred` with `f`, leaving the
rest untouched: ORM mutation of the single row fetched by primary key or
`scalar_one_or_none`. -/
def updateFirst {α : Type} (pred : α → Bool) (f : α → α) : List α → List α
  | [] => []
  | x :: xs => if pred x then f x :: xs else x :: updateFirst pred f xs

/-- Character class `[a-zA-Z0-9_.+-]` of the local part of the email
pattern in `validate_email` (`crud.py` line 9). -/
def isLocalChar (c : Char) : Bool :=
  c.isAlpha || c.isDigit || c = '_' || c = '.' || c = '+' || c = '-'

/-- Character class `[a-zA-Z0-9-]` of the domain segment. -/
def isDomainChar (c : Char) : Bool :=
  c.isAlpha || c.isDigit || c = '-'

/-- Character class `[a-zA-Z0-9-.]` of the final segment after the dot. -/
def isTailChar (c : Char) : Bool :=
  c.isAlpha || c.isDigit || c = '-' || c = '.'

/-- Full match of `[a-zA-Z0-9_.+-]+@[a-zA-Z0-9-]+\.[a-zA-Z0-9-.]+` against
a character list.  Since `@` is not a local character and `.` is not a
domain character, the greedy runs below are the only possible decomposition,
so this equals the regular-expression match. -/
def matchEmailCore (s : List Char) : Bool :=
  let l := s.takeWhile isLocalChar
  match s.drop l.length with
  | '@' :: r2 =>
    let d := r2.takeWhile isDomainChar
    match r2.drop d.length with
    | '.' :: t => !l.isEmpty && !d.isEmpty && !t.isEmpty && t.all isTailChar
    | _ => false
  | _ => false

/-- `re.match(r"^[a-zA-Z0-9_.+-]+@[a-zA-Z0-9-]+\.[a-zA-Z0-9-.]+$", email)`
is truthy.  Python's `$` (without `re.MULTILINE`) also matches just before
one trailing newline, hence the second disjunct. -/
def validEmail (email : String) : Bool :=
  matchEmailCore email.data ||
    (match email.data.getLast? with
     | some c => (c == '\n') && matchEmailCore email.data.dropLast
     | none => false)

/-- `crud.validate_email`: raise 400 unless the pattern matches. -/
def validate_email (email : String) : Except HTTPException Unit :=
  if !(validEmail email) then
    .error ⟨400, "Invalid email format"⟩
  else
    .ok ()

/-- `crud.validate_coverage`: raise 400 unless `coverage > 0`. -/
def validate_coverage (coverage : Int) : Except HTTPException Unit :=
  if coverage ≤ 0 then
    .error ⟨400, "Coverage must be greater than zero"⟩
  else
    .ok ()

/-- `crud.validate_amount`: raise 400 unless `amount > 0`. -/
def validate_amount (amount : Int) : Except HTTPException Unit :=
  if amount ≤ 0 then
    .error ⟨400, "Claim amount must be greater than zero"⟩
  else
    .ok ()

/-- `crud.create_policyholder`.  `newId` is the value drawn by
`generate_policyholder_id` (random 31-bit draw, retried until unused). -/
def create_policyholder (db : DB) (newId : Int) (name email : String) :
    Except HTTPException Policyholder × DB :=
  match validate_email email with
  | .error e => (.error e, db)
  | .ok _ =>
    let policyholder : Policyholder := ⟨newId, name, email⟩
    (.ok policyholder, { db with policyholders := db.policyholders ++ [policyholder] })

/-- `crud.create_policy`: validate coverage, allocate
`(max policy_id over this policyholder or 0) + 1`, insert. -/
def create_policy (db : DB) (policyholder_id : Int) (coverage : Int) (status : String) :
    Except HTTPException Policy × DB :=
  match validate_coverage coverage with
  | .error e => (.error e, db)
  | .ok _ =>
    let max_policy_id := sqlMaxInt
      ((db.policies.filter (fun p => p.policyholder_id == policyholder_id)).map
        (fun p => p.policy_id))
    let new_policy_id := pyOrZeroInt max_policy_id + 1
    let policy : Policy := ⟨new_policy_id, policyholder_id, coverage, status⟩
    (.ok policy, { db with policies := db.policies ++ [policy] })

/-- `crud.create_claim`: validate amount, sum the non-rejected claims on
the (policyholder, policy) pair, 404 if the policy row is missing, 400 if
the total plus the new amount exceeds coverage, otherwise allocate the next
scoped claim id, derive the initial status and insert. -/
def create_claim (db : DB) (policyholder_id policy_id : Int) (amount : Int) :
    Except HTTPException Claim × DB :=
  match validate_amount amount with
  | .error e => (.error e, db)
  | .ok _ =>
    let total := pyOrZeroSum (sqlSumInt
      ((db.claims.filter (fun c =>
          c.policyholder_id == policyholder_id && c.policy_id == policy_id &&
          c.status != "rejected")).map (fun c => c.amount)))
    match db.policies.find? (fun p =>
        p.policy_id == policy_id && p.policyholder_id == policyholder_id) with
    | none => (.error ⟨404, "Policy not found"⟩, db)
    | some policy =>
      if total + amount > policy.coverage then
        (.error ⟨400, "Claim exceeds available coverage"⟩, db)
      else
        let max_claim_id := sqlMaxInt
          ((db.claims.filter (fun c =>
              c.policyholder_id == policyholder_id && c.policy_id == policy_id)).map
            (fun c => c.claim_id))
        let new_claim_id := pyOrZeroInt max_claim_id + 1
        let status := if amount > 10000 then "flagged" else "pending"
        let claim : Claim := ⟨new_claim_id, policy_id, policyholder_id, amount, status⟩
        (.ok claim, { db with claims := db.claims ++ [claim] })

/-- `crud.update_claim_status`: bulk `UPDATE ... RETURNING` over every row
matching the (policyholder, policy, claim) triple; 404 when no row matched,
otherwise the first returned row is echoed back as a plain record. -/
def update_claim_status (db : DB) (policyholder_id policy_id claim_id : Int)
    (status : String) : Except HTTPException Claim × DB :=
  match db.claims.find? (fun c =>
      c.policyholder_id == policyholder_id && c.policy_id == policy_id &&
      c.claim_id == claim_id) with
  | none => (.error ⟨404, "Claim not found"⟩, db)
  | some c =>
    (.ok { c with status := status },
     { db with claims := db.claims.map (fun x =>
         if x.policyholder_id == policyholder_id && x.policy_id == policy_id &&
             x.claim_id == claim_id then
           { x with status := status }
         else x) })

/-- `crud.delete_policyholder`: fetch by primary key, 404 when absent;
otherwise the ORM cascade (`cascade="all, delete"` on `policies` and
`claims` in `models.py`) removes the row and every owned policy and claim. -/
def delete_policyholder (db : DB) (policyholder_id : Int) :
    Except HTTPException String × DB :=
  match db.policyholders.find? (fun p => p.id == policyholder_id) with
  | none => (.error ⟨404, "Policyholder not found"⟩, db)
  | some _ =>
    (.ok "Policyholder deleted successfully",
     { policyholders := db.policyholders.filter (fun p => !(p.id == policyholder_id)),
       policies := db.policies.filter (fun p => !(p.policyholder_id == policyholder_id)),
       claims := db.claims.filter (fun c => !(c.policyholder_id == policyholder_id)) })

/-- `crud.update_policy`: validate coverage, fetch the policy by
(policy_id, policyholder_id), 404 when absent, otherwise overwrite coverage
and status on that row.  No coverage-versus-claims re-check happens here. -/
def update_policy (db : DB) (policyholder_id policy_id : Int) (coverage : Int)
    (status : String) : Except HTTPException Policy × DB :=
  match validate_coverage coverage with
  | .error e => (.error e, db)
  | .ok _ =>
    match db.policies.find? (fun p =>
        p.policy_id == policy_id && p.policyholder_id == policyholder_id) with
    | none => (.error ⟨404, "Policy not found"⟩, db)
    | some policy =>
      let newPolicies := updateFirst
        (fun p => p.policy_id == policy_id && p.policyholder_id == policyholder_id)
        (fun p => { p with coverage := coverage, status := status })
        db.policies
      (.ok { policy with coverage := coverage, status := status },
       { db with policies := newPolicies })

/-- `crud.delete_policy`: `session.get(Policy, policy_id)` fetches by the
single-column primary key `policy_id` alone; 404 when absent or when the
stored owner differs from the caller-supplied `policyholder_id`; otherwise
bulk-delete the claims and the policy rows of that (policyholder, policy). -/
def delete_policy (db : DB) (policyholder_id policy_id : Int) :
    Except HTTPException String × DB :=
  match db.policies.find? (fun p => p.policy_id == policy_id) with
  | none => (.error ⟨404, "Policy not found"⟩, db)
  | some policy =>
    if !(policy.policyholder_id == policyholder_id) then
      (.error ⟨404, "Policy not found"⟩, db)
    else
      (.ok ("Policy " ++ toString policy_id ++ " and related claims deleted successfully"),
       { db with
         claims := db.claims.filter (fun c =>
           !(c.policyholder_id == policyholder_id && c.policy_id == policy_id)),
         policies := db.policies.filter (fun p =>
           !(p.policyholder_id == policyholder_id && p.policy_id == policy_id)) })

/-- `crud.update_policyholder`: fetch by primary key, 404 when absent,
otherwise overwrite name and email on that row.  Note: no call to
`validate_email` here. -/
def update_policyholder (db : DB) (policyholder_id : Int) (name email : String) :
    Except HTTPException Policyholder × DB :=
  match db.policyholders.find? (fun p => p.id == policyholder_id) with
  | none => (.error ⟨404, "Policyholder not found"⟩, db)
  | some policyholder =>
    let newPolicyholders := updateFirst
      (fun p => p.id == policyholder_id)
      (fun p => { p with name := name, email := email })
      db.policyholders
    (.ok { policyholder with name := name, email := email },
     { db with policyholders := newPolicyholders })

/-- The sum of the amounts of the non-rejected claims recorded against the
(policyholder, policy) pair: the quantity the coverage invariant bounds. -/
def nonRejectedTotal (db : DB) (policyholder_id policy_id : Int) : Int :=
  ((db.claims.filter (fun c =>
      c.policyholder_id == policyholder_id && c.policy_id == policy_id &&
      c.status != "rejected")).map (fun c => c.amount)).sum

/-- All elements of an integer list are pairwise distinct. -/
def distinctInts : List Int → Bool
  | [] => true
  | x :: xs => !(xs.contains x) && distinctInts xs

/-- The single-column primary-key constraint `models.py` declares on
`policies.policy_id`: no two policy rows may share a `policy_id`,
regardless of owner. -/
def policyPkRespected (policies : List Policy) : Bool :=
  distinctInts (policies.map (fun p => p.policy_id))

/-- The single-column primary-key constraint `models.py` declares on
`claims.claim_id`: no two claim rows may share a `claim_id`, regardless of
the owning (policyholder, policy). -/
def claimPkRespected (claims : List Claim) : Bool :=
  distinctInts (claims.map (fun c => c.claim_id))

/-- Outcome of running `create_claim` through to its database commit: the
core result, or the storage-layer `IntegrityError` the commit raises when
the INSERT violates a constraint (surfaced by the app as an unhandled
server error, not an `HTTPException`). -/
inductive CreateClaimResult where
  | ok (claim : Claim)
  | httpError (e : HTTPException)
  | integrityError
deriving Repr, DecidableEq

/-- `crud.create_claim` together with the commit of its INSERT:
`models.py` declares `claim_id` the single-column primary key of the
`claims` table, so the database accepts the new row only when its
`claim_id` differs from every existing claim row's; otherwise the commit
raises `IntegrityError` and nothing is persisted. -/
def create_claim_commit (db : DB) (policyholder_id policy_id amount : Int) :
    CreateClaimResult × DB :=
  match create_claim db policyholder_id policy_id amount with
  | (.error e, _) => (.httpError e, db)
  | (.ok cl, db2) =>
    if db.claims.all (fun c => !(c.claim_id == cl.claim_id)) then
      (.ok cl, db2)
    else
      (.integrityError, db)

/-! ## Helper lemmas -/

/-- `scalar() or 0` applied to an SQL `SUM` is the plain mathematical sum:
NULL on the empty set becomes `0`, and a zero scalar is sent to `0` too. -/
theorem pyOrZeroSum_sqlSumInt (l : List Int) : pyOrZeroSum (sqlSumInt l) = l.sum := by
  cases l with
  | nil => simp [sqlSumInt, pyOrZeroSum]
  | cons x xs =>
    simp only [sqlSumInt, pyOrZeroSum]
    split
    · next h => exact h.symm
    · rfl

/-- If `find?` locates `q`, then the rewritten row `f q` is a member of the
list produced by `updateFirst`. -/
theorem updateFirst_mem_of_find? {α : Type} (pred : α → Bool) (f : α → α) :
    ∀ (l : List α) (q : α), l.find? pred = some q → f q ∈ updateFirst pred f l := by
  intro l
  induction l with
  | nil => intro q h; simp at h
  | cons x xs ih =>
    intro q h
    by_cases hx : pred x
    · rw [List.find?_cons_of_pos _ hx] at h
      cases h
      simp [updateFirst, hx]
    · rw [List.find?_cons_of_neg _ hx] at h
      simp [updateFirst, hx, ih q h]

/-! ## Example database snapshots used by witnesses and counterexamples -/

/-- Two policyholders; Ada (id 1) already owns the policy with
`policy_id = 1`; Bob (id 2) owns none. -/
def pkDb : DB :=
  ⟨[⟨1, "Ada", "ada@example.com"⟩, ⟨2, "Bob", "bob@example.com"⟩],
   [⟨1, 1, 1000, "active"⟩], []⟩

/-- Ada owns two policies (ids 1, 2); policy 1 already carries the claim
with `claim_id = 1`; policy 2 has no claims yet. -/
def claimPkDb : DB :=
  ⟨[⟨1, "Ada", "ada@example.com"⟩],
   [⟨1, 1, 1000, "active"⟩, ⟨2, 1, 1000, "active"⟩],
   [⟨1, 1, 1, 100, "pending"⟩]⟩

/-- An empty store: no policyholders, no policies, no claims. -/
def emptyDb : DB := ⟨[], [], []⟩

/-! ## C10 -/

/-- C10: `create_policy` performs no existence check on the supplied
`policyholder_id`: for any snapshot and any `policyholder_id` (including
one with no `Policyholder` row), a creation with strictly positive coverage
returns the inserted policy — in particular it never raises `NotFound` at
the core level. -/
theorem create_policy_skips_policyholder_check (db : DB) (phid : Int) (cov : Int)
    (st : String) (hcov : 0 < cov) :
    ∃ pol : Policy,
      create_policy db phid cov st = (.ok pol, { db with policies := db.policies ++ [pol] }) ∧
      pol.policyholder_id = phid ∧ pol.coverage = cov ∧ pol.status = st := by
  have hv : validate_coverage cov = .ok () := by
    simp [validate_coverage, not_le.mpr hcov]
  simp only [create_policy, hv]
  exact ⟨_, rfl, rfl, rfl, rfl⟩

/-- Witness for C10: on the empty store — so policyholder `7` certainly
does not exist — creating a policy with coverage `250` succeeds. -/
theorem create_policy_skips_policyholder_check_witness :
    (0 : Int) < 250 ∧
    ∃ pol : Policy,
      create_policy emptyDb 7 250 "active" =
        (.ok pol, { emptyDb with policies := emptyDb.policies ++ [pol] }) ∧
      pol.policyholder_id = 7 ∧ pol.coverage = 250 ∧ pol.status = "active" :=
  ⟨by decide, create_policy_skips_policyholder_check emptyDb 7 250 "active" (by decide)⟩

/-! ## C2 -/

/-- C2 (code bug): `crud.create_policy` does assign the per-policyholder
next id — on `pkDb`, Bob's first policy is assigned `policy_id = 1` even
though Ada's policy already uses `policy_id = 1` — but `models.py` declares
`policy_id` the single-column primary key of the `policies` table, so the
resulting table violates the primary-key constraint: the INSERT cannot be
committed, and the creation the claim describes fails at the storage layer
instead of succeeding. -/
theorem create_policy_per_owner_id_violates_global_pk :
    (create_policy pkDb 2 500 "active").1 = .ok ⟨1, 2, 500, "active"⟩ ∧
    policyPkRespected pkDb.policies = true ∧
    policyPkRespected ((create_policy pkDb 2 500 "active").2.policies) = false := by
  refine ⟨by decide, by decide, by decide⟩

/-! ## C3 -/

/-- C3 (code bug): `crud.create_claim` does assign the next claim id scoped
to the (policyholder, policy) pair — on `claimPkDb`, the first claim on
Ada's policy 2 is assigned `claim_id = 1` even though the claim on policy 1
already uses `claim_id = 1` — but `models.py` declares `claim_id` the
single-column primary key of the `claims` table, so the resulting table
violates the primary-key constraint: claim ids cannot actually be reused
across (policyholder, policy) scopes as the claim asserts. -/
theorem create_claim_scoped_id_violates_global_pk :
    (create_claim claimPkDb 1 2 200).1 = .ok ⟨1, 2, 1, 200, "pending"⟩ ∧
    claimPkRespected claimPkDb.claims = true ∧
    claimPkRespected ((create_claim claimPkDb 1 2 200).2.claims) = false := by
  refine ⟨by decide, by decide, by decide⟩

/-! ## C1 -/

/-- Ada owns policy 1 with coverage 1000, already carrying a pending claim
of 600. -/
def ledgerDb : DB :=
  ⟨[⟨1, "Ada", "ada@example.com"⟩],
   [⟨1, 1, 1000, "active"⟩],
   [⟨1, 1, 1, 600, "pending"⟩]⟩

/-- Behaviour of the core `crud.create_claim` (before its commit) on an
existing policy with a positive amount: over coverage it fails with the
coverage-exceeded error and the snapshot is unchanged; within coverage it
assembles the new claim row and appends it to the pending session. -/
theorem create_claim_core_gate (db : DB) (phid pid amount : Int) (p : Policy)
    (hamt : 0 < amount)
    (hfind : db.policies.find?
      (fun q => q.policy_id == pid && q.policyholder_id == phid) = some p) :
    (nonRejectedTotal db phid pid + amount > p.coverage →
      create_claim db phid pid amount =
        (.error ⟨400, "Claim exceeds available coverage"⟩, db)) ∧
    (nonRejectedTotal db phid pid + amount ≤ p.coverage →
      ∃ cl : Claim,
        create_claim db phid pid amount = (.ok cl, { db with claims := db.claims ++ [cl] }) ∧
        cl.policyholder_id = phid ∧ cl.policy_id = pid ∧ cl.amount = amount) := by
  have hv : validate_amount amount = .ok () := by
    simp [validate_amount, not_le.mpr hamt]
  have htot : pyOrZeroSum (sqlSumInt
      ((db.claims.filter (fun c =>
          c.policyholder_id == phid && c.policy_id == pid &&
          c.status != "rejected")).map (fun c => c.amount))) =
      nonRejectedTotal db phid pid :=
    pyOrZeroSum_sqlSumInt _
  constructor
  · intro hgt
    simp only [create_claim, hv, hfind, htot]
    rw [if_pos hgt]
  · intro hle
    simp only [create_claim, hv, hfind, htot]
    rw [if_neg (not_lt.mpr hle)]
    exact ⟨_, rfl, rfl, rfl, rfl⟩

/-- C1 counterexample: at the reachable snapshot `claimPkDb` the creation
`create_claim(1, 2, 200)` is on an existing policy, has a positive amount
and passes the coverage gate (0 + 200 <= 1000), yet the scoped allocation
assigns `claim_id = 1`, which collides with the claims-table primary key of
`models.py`, so the commit raises `IntegrityError` and no claim row is
persisted — refuting the original "otherwise a new claim row is persisted
and returned". -/
theorem create_claim_within_coverage_not_persisted :
    (0 : Int) < 200 ∧
    claimPkDb.policies.find? (fun q => q.policy_id == 2 && q.policyholder_id == 1) =
      some ⟨2, 1, 1000, "active"⟩ ∧
    nonRejectedTotal claimPkDb 1 2 + 200 ≤ (1000 : Int) ∧
    create_claim_commit claimPkDb 1 2 200 = (.integrityError, claimPkDb) := by
  refine ⟨by decide, by decide, by decide, by decide⟩

/-- C1 (amended): for a claim creation on an existing policy with a
positive amount, if the non-rejected total plus the new amount strictly
exceeds the policy's coverage, creation fails with the coverage-exceeded
error and no row is persisted; otherwise the core assembles the new claim
row and the commit persists and returns it exactly when its allocated
`claim_id` collides with no existing claim row's primary key — when the
scoped allocation reuses an existing `claim_id`, the commit fails with a
storage `IntegrityError` and no claim row is persisted. -/
theorem create_claim_commit_coverage_gate (db : DB) (phid pid amount : Int) (p : Policy)
    (hamt : 0 < amount)
    (hfind : db.policies.find?
      (fun q => q.policy_id == pid && q.policyholder_id == phid) = some p) :
    (nonRejectedTotal db phid pid + amount > p.coverage →
      create_claim_commit db phid pid amount =
        (.httpError ⟨400, "Claim exceeds available coverage"⟩, db)) ∧
    (nonRejectedTotal db phid pid + amount ≤ p.coverage →
      ∃ cl : Claim,
        cl.policyholder_id = phid ∧ cl.policy_id = pid ∧ cl.amount = amount ∧
        ((∀ c ∈ db.claims, c.claim_id ≠ cl.claim_id) →
          create_claim_commit db phid pid amount =
            (.ok cl, { db with claims := db.claims ++ [cl] })) ∧
        ((∃ c ∈ db.claims, c.claim_id = cl.claim_id) →
          create_claim_commit db phid pid amount = (.integrityError, db))) := by
  have hcore := create_claim_core_gate db phid pid amount p hamt hfind
  constructor
  · intro hgt
    have h1 := hcore.1 hgt
    simp [create_claim_commit, h1]
  · intro hle
    obtain ⟨cl, hcc, h1, h2, h3⟩ := hcore.2 hle
    refine ⟨cl, h1, h2, h3, ?_, ?_⟩
    · intro hfresh
      have hall : db.claims.all (fun c => !(c.claim_id == cl.claim_id)) = true := by
        rw [List.all_eq_true]
        intro c hc
        simpa using hfresh c hc
      simp [create_claim_commit, hcc, hall]
    · intro hcoll
      obtain ⟨c, hc, hceq⟩ := hcoll
      cases hb : db.claims.all (fun x => !(x.claim_id == cl.claim_id)) with
      | true =>
        exfalso
        have := List.all_eq_true.mp hb c hc
        simp [hceq] at this
      | false => simp [create_claim_commit, hcc, hb]

/-- Witness for C1's amended claim: on `ledgerDb` (coverage 1000,
non-rejected total 600) a new claim of 300 is within coverage; its
allocated `claim_id` is fresh, so the commit persists and returns it. -/
theorem create_claim_commit_coverage_gate_witness :
    ∃ cl : Claim,
      cl.policyholder_id = 1 ∧ cl.policy_id = 1 ∧ cl.amount = 300 ∧
      ((∀ c ∈ ledgerDb.claims, c.claim_id ≠ cl.claim_id) →
        create_claim_commit ledgerDb 1 1 300 =
          (.ok cl, { ledgerDb with claims := ledgerDb.claims ++ [cl] })) ∧
      ((∃ c ∈ ledgerDb.claims, c.claim_id = cl.claim_id) →
        create_claim_commit ledgerDb 1 1 300 = (.integrityError, ledgerDb)) :=
  (create_claim_commit_coverage_gate ledgerDb 1 1 300 ⟨1, 1, 1000, "active"⟩
    (by decide) (by decide)).2 (by decide)

/-! ## C4 -/

/-- Ada owns policy 1 with a large coverage of 20000 and no claims. -/
def bigCoverDb : DB :=
  ⟨[⟨1, "Ada", "ada@example.com"⟩], [⟨1, 1, 20000, "active"⟩], []⟩

/-- C4: a successfully created claim has initial status `"flagged"` exactly
when its amount is strictly greater than 10000, and `"pending"` whenever
the amount is at most 10000 — so at exactly 10000 the status is
`"pending"`. -/
theorem create_claim_initial_status_boundary (db : DB) (phid pid amount : Int) (p : Policy)
    (hamt : 0 < amount)
    (hfind : db.policies.find?
      (fun q => q.policy_id == pid && q.policyholder_id == phid) = some p)
    (hcov : nonRejectedTotal db phid pid + amount ≤ p.coverage) :
    ∃ cl : Claim, (create_claim db phid pid amount).1 = .ok cl ∧
      (cl.status = "flagged" ↔ 10000 < amount) ∧
      (amount ≤ 10000 → cl.status = "pending") := by
  have hv : validate_amount amount = .ok () := by
    simp [validate_amount, not_le.mpr hamt]
  have htot : pyOrZeroSum (sqlSumInt
      ((db.claims.filter (fun c =>
          c.policyholder_id == phid && c.policy_id == pid &&
          c.status != "rejected")).map (fun c => c.amount))) =
      nonRejectedTotal db phid pid :=
    pyOrZeroSum_sqlSumInt _
  simp only [create_claim, hv, hfind, htot]
  rw [if_neg (not_lt.mpr hcov)]
  refine ⟨_, rfl, ?_, ?_⟩
  · by_cases h : (10000 : Int) < amount
    · simp [h]
    · simp [h]
  · intro hle
    simp [not_lt.mpr hle]

/-- Witness for C4: the boundary case — a claim of exactly 10000 on
`bigCoverDb` is created with status `"pending"`, not `"flagged"`. -/
theorem create_claim_initial_status_boundary_witness :
    ∃ cl : Claim, (create_claim bigCoverDb 1 1 10000).1 = .ok cl ∧
      (cl.status = "flagged" ↔ 10000 < (10000 : Int)) ∧
      ((10000 : Int) ≤ 10000 → cl.status = "pending") :=
  create_claim_initial_status_boundary bigCoverDb 1 1 10000 ⟨1, 1, 20000, "active"⟩
    (by decide) (by decide) (by decide)

/-! ## C5 -/

/-- A single policyholder, Ada, with a well-formed stored email. -/
def c5Db : DB := ⟨[⟨1, "Ada", "ada@example.com"⟩], [], []⟩

/-- C5 counterexample: `update_policyholder` performs no email validation —
on `c5Db` it overwrites Ada's email with `"not-an-email"`, which does not
match the pattern, succeeds, and persists the non-matching email, so the
stored-row invariant claimed for updates is not preserved. -/
theorem update_policyholder_stores_invalid_email :
    validEmail "not-an-email" = false ∧
    (update_policyholder c5Db 1 "Ada" "not-an-email").1 = .ok ⟨1, "Ada", "not-an-email"⟩ ∧
    (update_policyholder c5Db 1 "Ada" "not-an-email").2.policyholders =
      [⟨1, "Ada", "not-an-email"⟩] := by
  refine ⟨by decide, by decide, by decide⟩

/-- C5 amended: `create_policyholder` rejects a non-matching email with the
400 validation error and persists nothing, but `update_policyholder` does
not validate: on an existing policyholder it succeeds and stores the given
email even when it fails the pattern. -/
theorem email_validated_on_create_only (db : DB) (newId : Int) (nm nm2 em : String)
    (ph : Policyholder) (hbad : validEmail em = false) (hmem : ph ∈ db.policyholders) :
    create_policyholder db newId nm em = (.error ⟨400, "Invalid email format"⟩, db) ∧
    ∃ q : Policyholder, (update_policyholder db ph.id nm2 em).1 = .ok q ∧ q.email = em ∧
      q ∈ (update_policyholder db ph.id nm2 em).2.policyholders := by
  constructor
  · simp [create_policyholder, validate_email, hbad]
  · cases h : db.policyholders.find? (fun p => p.id == ph.id) with
    | none =>
      exfalso
      have hnone := List.find?_eq_none.mp h ph hmem
      simp at hnone
    | some q0 =>
      refine ⟨{ q0 with name := nm2, email := em }, ?_, rfl, ?_⟩
      · simp [update_policyholder, h]
      · simp only [update_policyholder, h]
        exact updateFirst_mem_of_find? _ _ _ _ h

/-- Witness for C5's amended claim at a concrete snapshot: creation with
`"not-an-email"` fails, the update stores it. -/
theorem email_validated_on_create_only_witness :
    create_policyholder c5Db 77 "Eve" "not-an-email" =
      (.error ⟨400, "Invalid email format"⟩, c5Db) ∧
    ∃ q : Policyholder,
      (update_policyholder c5Db (1 : Int) "Eve" "not-an-email").1 = .ok q ∧
      q.email = "not-an-email" ∧
      q ∈ (update_policyholder c5Db (1 : Int) "Eve" "not-an-email").2.policyholders :=
  email_validated_on_create_only c5Db 77 "Eve" "Eve" "not-an-email"
    ⟨1, "Ada", "ada@example.com"⟩ (by decide) (by decide)

/-! ## C6 -/

/-- Ada's policy 1 has coverage 1000 and a non-rejected claim of 900. -/
def lowerDb : DB :=
  ⟨[⟨1, "Ada", "ada@example.com"⟩],
   [⟨1, 1, 1000, "active"⟩],
   [⟨1, 1, 1, 900, "pending"⟩]⟩

/-- C6: for an existing policy and any strictly positive coverage value,
`update_policy` succeeds, overwrites coverage and status on the stored row,
and never returns an error — in particular no `CoverageExceededError` and
no re-check of the coverage invariant, whatever the non-rejected claim
total is. -/
theorem update_policy_never_coverage_error (db : DB) (phid pid cov : Int) (st : String)
    (p : Policy) (hcov : 0 < cov)
    (hfind : db.policies.find?
      (fun q => q.policy_id == pid && q.policyholder_id == phid) = some p) :
    (update_policy db phid pid cov st).1 = .ok { p with coverage := cov, status := st } ∧
    ∀ e : HTTPException, (update_policy db phid pid cov st).1 ≠ .error e := by
  have hv : validate_coverage cov = .ok () := by
    simp [validate_coverage, not_le.mpr hcov]
  constructor
  · simp [update_policy, hv, hfind]
  · intro e
    simp [update_policy, hv, hfind]

/-- Witness for C6: on `lowerDb` the coverage is lowered to 100, strictly
below the 900 of non-rejected claims, and the update still succeeds. -/
theorem update_policy_never_coverage_error_witness :
    (100 : Int) < nonRejectedTotal lowerDb 1 1 ∧
    (update_policy lowerDb 1 1 100 "active").1 = .ok ⟨1, 1, 100, "active"⟩ ∧
    ∀ e : HTTPException, (update_policy lowerDb 1 1 100 "active").1 ≠ .error e :=
  ⟨by decide,
   (update_policy_never_coverage_error lowerDb 1 1 100 "active" ⟨1, 1, 1000, "active"⟩
     (by decide) (by decide)).1,
   (update_policy_never_coverage_error lowerDb 1 1 100 "active" ⟨1, 1, 1000, "active"⟩
     (by decide) (by decide)).2⟩

/-! ## C7 -/

/-- Projecting away the status, the guarded status overwrite leaves every
row of the claims table unchanged. -/
theorem map_status_overwrite_frame (claims : List Claim) (phid pid cid : Int)
    (st : String) :
    ((claims.map (fun x =>
        if x.policyholder_id == phid && x.policy_id == pid && x.claim_id == cid then
          { x with status := st } else x)).map
      (fun x => (x.claim_id, x.policy_id, x.policyholder_id, x.amount))) =
      claims.map (fun x => (x.claim_id, x.policy_id, x.policyholder_id, x.amount)) := by
  induction claims with
  | nil => rfl
  | cons y ys ih =>
    simp only [List.map_cons, ih]
    by_cases h : (y.policyholder_id == phid && y.policy_id == pid && y.claim_id == cid) = true
    · simp [h]
    · simp [h]

/-- C7: on an existing claim, `update_claim_status` succeeds for every
caller-supplied status string with no precondition on the prior status and
no coverage re-check: it returns the claim record with exactly the supplied
status, rewrites only the status of the matching row, and leaves the ids
and amount of every claim row — and the other two tables — unchanged. -/
theorem update_claim_status_unconditional_overwrite (db : DB) (phid pid cid : Int)
    (st : String) (c : Claim)
    (hfind : db.claims.find? (fun x =>
      x.policyholder_id == phid && x.policy_id == pid && x.claim_id == cid) = some c) :
    update_claim_status db phid pid cid st =
      (.ok { c with status := st },
       { db with claims := db.claims.map (fun x =>
           if x.policyholder_id == phid && x.policy_id == pid && x.claim_id == cid then
             { x with status := st } else x) }) ∧
    (update_claim_status db phid pid cid st).2.policyholders = db.policyholders ∧
    (update_claim_status db phid pid cid st).2.policies = db.policies ∧
    ((update_claim_status db phid pid cid st).2.claims.map
        (fun x => (x.claim_id, x.policy_id, x.policyholder_id, x.amount))) =
      db.claims.map (fun x => (x.claim_id, x.policy_id, x.policyholder_id, x.amount)) := by
  refine ⟨by simp only [update_claim_status, hfind], ?_, ?_, ?_⟩
  · simp [update_claim_status, hfind]
  · simp [update_claim_status, hfind]
  · simp only [update_claim_status, hfind]
    exact map_status_overwrite_frame db.claims phid pid cid st

/-- Witness for C7: the pending claim of `ledgerDb` is moved to an
arbitrary caller-supplied string. -/
theorem update_claim_status_unconditional_overwrite_witness :
    update_claim_status ledgerDb 1 1 1 "totally-custom" =
      (.ok ⟨1, 1, 1, 600, "totally-custom"⟩,
       ⟨[⟨1, "Ada", "ada@example.com"⟩], [⟨1, 1, 1000, "active"⟩],
        [⟨1, 1, 1, 600, "totally-custom"⟩]⟩) :=
  ((update_claim_status_unconditional_overwrite ledgerDb 1 1 1 "totally-custom"
    ⟨1, 1, 1, 600, "pending"⟩ (by decide)).1).trans (by decide)

/-! ## C8 -/

/-- Two policyholders, each with one policy and one claim. -/
def cascadeDb : DB :=
  ⟨[⟨1, "Ada", "ada@example.com"⟩, ⟨2, "Bob", "bob@example.com"⟩],
   [⟨1, 1, 1000, "active"⟩, ⟨2, 2, 500, "active"⟩],
   [⟨1, 1, 1, 100, "pending"⟩, ⟨2, 2, 2, 50, "pending"⟩]⟩

/-- C8: for a non-existent policyholder id, `delete_policyholder` fails
with 404 and changes nothing; for an existing one it succeeds and removes
the policyholder together with every policy and claim referencing it — no
orphan rows remain — while keeping every row of other policyholders. -/
theorem delete_policyholder_cascade (db : DB) (phid : Int) :
    ((∀ ph ∈ db.policyholders, ph.id ≠ phid) →
      delete_policyholder db phid = (.error ⟨404, "Policyholder not found"⟩, db)) ∧
    (∀ ph ∈ db.policyholders, ph.id = phid →
      (delete_policyholder db phid).1 = .ok "Policyholder deleted successfully" ∧
      (∀ q ∈ (delete_policyholder db phid).2.policyholders, q.id ≠ phid) ∧
      (∀ p ∈ (delete_policyholder db phid).2.policies, p.policyholder_id ≠ phid) ∧
      (∀ c ∈ (delete_policyholder db phid).2.claims, c.policyholder_id ≠ phid) ∧
      (∀ p ∈ db.policies, p.policyholder_id ≠ phid →
        p ∈ (delete_policyholder db phid).2.policies) ∧
      (∀ c ∈ db.claims, c.policyholder_id ≠ phid →
        c ∈ (delete_policyholder db phid).2.claims)) := by
  constructor
  · intro hall
    cases h : db.policyholders.find? (fun p => p.id == phid) with
    | none => simp [delete_policyholder, h]
    | some q =>
      exfalso
      have hq := List.find?_some h
      have hqm := List.mem_of_find?_eq_some h
      exact hall q hqm (by simpa using hq)
  · intro ph hmem hid
    cases h : db.policyholders.find? (fun p => p.id == phid) with
    | none =>
      exfalso
      have hnone := List.find?_eq_none.mp h ph hmem
      simp [hid] at hnone
    | some q =>
      refine ⟨by simp [delete_policyholder, h], ?_, ?_, ?_, ?_, ?_⟩
      · intro x hx
        simp [delete_policyholder, h, List.mem_filter] at hx
        exact hx.2
      · intro x hx
        simp [delete_policyholder, h, List.mem_filter] at hx
        exact hx.2
      · intro x hx
        simp [delete_policyholder, h, List.mem_filter] at hx
        exact hx.2
      · intro x hx hne
        simp [delete_policyholder, h, List.mem_filter]
        exact ⟨hx, hne⟩
      · intro x hx hne
        simp [delete_policyholder, h, List.mem_filter]
        exact ⟨hx, hne⟩

/-- Witness for C8: deleting Ada from `cascadeDb` removes her row, her
policy and her claim, keeps Bob's rows, and reports success. -/
theorem delete_policyholder_cascade_witness :
    (delete_policyholder cascadeDb 1).1 = .ok "Policyholder deleted successfully" ∧
    (∀ q ∈ (delete_policyholder cascadeDb 1).2.policyholders, q.id ≠ 1) ∧
    (∀ p ∈ (delete_policyholder cascadeDb 1).2.policies, p.policyholder_id ≠ 1) ∧
    (∀ c ∈ (delete_policyholder cascadeDb 1).2.claims, c.policyholder_id ≠ 1) ∧
    (∀ p ∈ cascadeDb.policies, p.policyholder_id ≠ 1 →
      p ∈ (delete_policyholder cascadeDb 1).2.policies) ∧
    (∀ c ∈ cascadeDb.claims, c.policyholder_id ≠ 1 →
      c ∈ (delete_policyholder cascadeDb 1).2.claims) :=
  (delete_policyholder_cascade cascadeDb 1).2 ⟨1, "Ada", "ada@example.com"⟩ (by decide) rfl

/-! ## C9 -/

/-- C9: under the primary-key constraint of `models.py` (`policy_id` is
globally unique), `delete_policy` fails with 404 and changes nothing when
no policy row carries the given (policy_id, policyholder_id) pair — the
policy is absent or its stored owner differs — and when the owner matches
it succeeds, removing the policy and every claim of that (policyholder,
policy) pair while leaving policyholders and unrelated claims in place. -/
theorem delete_policy_owner_check_cascade (db : DB) (phid pid : Int)
    (hpk : ∀ p1 ∈ db.policies, ∀ p2 ∈ db.policies, p1.policy_id = p2.policy_id → p1 = p2) :
    ((∀ p ∈ db.policies, ¬(p.policy_id = pid ∧ p.policyholder_id = phid)) →
      delete_policy db phid pid = (.error ⟨404, "Policy not found"⟩, db)) ∧
    (∀ p ∈ db.policies, p.policy_id = pid → p.policyholder_id = phid →
      (delete_policy db phid pid).1 =
        .ok ("Policy " ++ toString pid ++ " and related claims deleted successfully") ∧
      (∀ c ∈ (delete_policy db phid pid).2.claims,
        ¬(c.policyholder_id = phid ∧ c.policy_id = pid)) ∧
      (∀ q ∈ (delete_policy db phid pid).2.policies,
        ¬(q.policyholder_id = phid ∧ q.policy_id = pid)) ∧
      (delete_policy db phid pid).2.policyholders = db.policyholders ∧
      (∀ c ∈ db.claims, ¬(c.policyholder_id = phid ∧ c.policy_id = pid) →
        c ∈ (delete_policy db phid pid).2.claims)) := by
  constructor
  · intro hall
    cases h : db.policies.find? (fun p => p.policy_id == pid) with
    | none => simp [delete_policy, h]
    | some q =>
      have hq : q.policy_id = pid := by simpa using List.find?_some h
      have hqm := List.mem_of_find?_eq_some h
      have hqo : ¬(q.policyholder_id = phid) := fun he => hall q hqm ⟨hq, he⟩
      simp [delete_policy, h, hqo]
  · intro p hmem hp1 hp2
    cases h : db.policies.find? (fun x => x.policy_id == pid) with
    | none =>
      exfalso
      have hnone := List.find?_eq_none.mp h p hmem
      simp [hp1] at hnone
    | some q =>
      have hq : q.policy_id = pid := by simpa using List.find?_some h
      have hqm := List.mem_of_find?_eq_some h
      have hqp : q = p := hpk q hqm p hmem (by rw [hq, hp1])
      subst hqp
      refine ⟨by simp [delete_policy, h, hp2], ?_, ?_, ?_, ?_⟩
      · intro x hx
        simp [delete_policy, h, hp2, List.mem_filter] at hx
        intro hcontra
        rcases hx.2 with h1 | h1
        · exact h1 hcontra.1
        · exact h1 hcontra.2
      · intro x hx
        simp [delete_policy, h, hp2, List.mem_filter] at hx
        intro hcontra
        rcases hx.2 with h1 | h1
        · exact h1 hcontra.1
        · exact h1 hcontra.2
      · simp [delete_policy, h, hp2]
      · intro x hx hne
        simp [delete_policy, h, hp2, List.mem_filter]
        exact ⟨hx, not_and_or.mp hne⟩

/-- Witness for C9: deleting Bob's policy 2 from `cascadeDb` (owner
matches) succeeds and removes the policy row and Bob's claim while
preserving the policyholder rows and Ada's claim. -/
theorem delete_policy_owner_check_cascade_witness :
    (delete_policy cascadeDb 2 2).1 =
      .ok ("Policy " ++ toString (2 : Int) ++ " and related claims deleted successfully") ∧
    (∀ c ∈ (delete_policy cascadeDb 2 2).2.claims,
      ¬(c.policyholder_id = 2 ∧ c.policy_id = 2)) ∧
    (∀ q ∈ (delete_policy cascadeDb 2 2).2.policies,
      ¬(q.policyholder_id = 2 ∧ q.policy_id = 2)) ∧
    (delete_policy cascadeDb 2 2).2.policyholders = cascadeDb.policyholders ∧
    (∀ c ∈ cascadeDb.claims, ¬(c.policyholder_id = 2 ∧ c.policy_id = 2) →
      c ∈ (delete_policy cascadeDb 2 2).2.claims) :=
  (delete_policy_owner_check_cascade cascadeDb 2 2 (by decide)).2
    ⟨2, 2, 500, "active"⟩ (by decide) rfl rfl
